import Mathlib

/-!
Verification of the SmartThings media-player adapter in
`custom_components/smartthings/media_player.py`.  The module is
embedded shallowly: the capability filter, the feature-mask
computation, the state derivation, the read-only property accessors
and the command dispatchers become Lean functions over an explicit
device snapshot.  The entity base class that reads the snapshot and
submits commands is an external collaborator, so its behaviour is
modelled from the design document where noted.
-/

namespace STMedia

/-- Capability identifier `Capability.audio_mute` of the vendor SDK. -/
def audio_mute : String := "audioMute"

/-- Capability identifier `Capability.audio_volume`. -/
def audio_volume : String := "audioVolume"

/-- Capability identifier `Capability.media_input_source`. -/
def media_input_source : String := "mediaInputSource"

/-- Capability identifier `Capability.media_playback`. -/
def media_playback : String := "mediaPlayback"

/-- Capability identifier `Capability.media_playback_repeat`. -/
def media_playback_repeat : String := "mediaPlaybackRepeat"

/-- Capability identifier `Capability.media_playback_shuffle`. -/
def media_playback_shuffle : String := "mediaPlaybackShuffle"

/-- Capability identifier `Capability.switch`. -/
def switch : String := "switch"

/-- Feature bit `MediaPlayerEntityFeature.PAUSE` of the host platform. -/
def PAUSE : Nat := 1

/-- Feature bit `MediaPlayerEntityFeature.VOLUME_SET`. -/
def VOLUME_SET : Nat := 4

/-- Feature bit `MediaPlayerEntityFeature.VOLUME_MUTE`. -/
def VOLUME_MUTE : Nat := 8

/-- Feature bit `MediaPlayerEntityFeature.TURN_ON`. -/
def TURN_ON : Nat := 128

/-- Feature bit `MediaPlayerEntityFeature.TURN_OFF`. -/
def TURN_OFF : Nat := 256

/-- Feature bit `MediaPlayerEntityFeature.VOLUME_STEP`. -/
def VOLUME_STEP : Nat := 1024

/-- Feature bit `MediaPlayerEntityFeature.SELECT_SOURCE`. -/
def SELECT_SOURCE : Nat := 2048

/-- Feature bit `MediaPlayerEntityFeature.STOP`. -/
def STOP : Nat := 4096

/-- Feature bit `MediaPlayerEntityFeature.PLAY`. -/
def PLAY : Nat := 16384

/-- Feature bit `MediaPlayerEntityFeature.SHUFFLE_SET`. -/
def SHUFFLE_SET : Nat := 32768

/-- Feature bit `MediaPlayerEntityFeature.REPEAT_SET`. -/
def REPEAT_SET : Nat := 262144

/-- Host-platform media-player state enumeration, restricted to the
members this module uses. -/
inductive MediaPlayerState where
  | OFF
  | ON
  | IDLE
  | PLAYING
  | PAUSED
  | BUFFERING
deriving DecidableEq, Repr

/-- Constant `CONTROLLABLE_SOURCES` from the module. -/
def CONTROLLABLE_SOURCES : List String := ["bluetooth", "wifi"]

/-- Constant `VALUE_TO_STATE` from the module: the fixed dict from
vendor playback-status strings to player states, embedded as an
association list. -/
def VALUE_TO_STATE : List (String × MediaPlayerState) :=
  [("buffering", .BUFFERING),
   ("pause", .PAUSED),
   ("paused", .PAUSED),
   ("play", .PLAYING),
   ("playing", .PLAYING),
   ("stop", .IDLE),
   ("stopped", .IDLE),
   ("on", .ON),
   ("off", .OFF)]

/-- Dict lookup of `VALUE_TO_STATE`, yielding `none` when the key is
absent (mirrors the guard `playback_status in VALUE_TO_STATE` followed
by indexing). -/
def lookupState (k : String) : Option MediaPlayerState :=
  (VALUE_TO_STATE.find? (fun p => p.1 == k)).map Prod.snd

/-- Function `get_capabilities`: the capability filter.  Returns the
full seven-capability list when at least one of the six primary
capabilities is present in the input, `none` otherwise. -/
def get_capabilities (capabilities : List String) : Option (List String) :=
  let supported :=
    [audio_mute, audio_volume, media_input_source, media_playback,
     media_playback_repeat, media_playback_shuffle, switch]
  let media_player_capabilities :=
    [audio_mute, audio_volume, media_input_source, media_playback,
     media_playback_repeat, media_playback_shuffle]
  if media_player_capabilities.any (fun c => capabilities.contains c) then
    some supported
  else
    none

/-- The full list `get_capabilities` returns for a qualifying device
(`supported` in the source). -/
def supported_list : List String :=
  [audio_mute, audio_volume, media_input_source, media_playback,
   media_playback_repeat, media_playback_shuffle, switch]

/-- The six primary capabilities (`media_player_capabilities` in the
source): a device qualifies when it reports at least one of them. -/
def primary_capabilities : List String :=
  [audio_mute, audio_volume, media_input_source, media_playback,
   media_playback_repeat, media_playback_shuffle]

/-- Modelled from the spec: `supports_capability` of the entity base
class (not under src/) tests whether the device reports the given
capability; the feature resolver examines which of the seven
capabilities the device supports as a set-membership test. -/
def supports_capability (caps : List String) (c : String) : Bool :=
  caps.contains c

/-- Method `_determine_features`: the feature bitmask computed at
construction from the supported capabilities of the device. -/
def determine_features (caps : List String) : Nat :=
  let features := PLAY ||| PAUSE ||| STOP
  let features :=
    if supports_capability caps audio_volume then
      features ||| (VOLUME_SET ||| VOLUME_STEP)
    else features
  let features :=
    if supports_capability caps audio_mute then
      features ||| VOLUME_MUTE
    else features
  let features :=
    if supports_capability caps switch then
      features ||| (TURN_ON ||| TURN_OFF)
    else features
  let features :=
    if supports_capability caps media_input_source then
      features ||| SELECT_SOURCE
    else features
  let features :=
    if supports_capability caps media_playback_shuffle then
      features ||| SHUFFLE_SET
    else features
  let features :=
    if supports_capability caps media_playback_repeat then
      features ||| REPEAT_SET
    else features
  features

/-- The body of `_determine_features` abstracted over the six boolean
capability tests, for finite case analysis. -/
def features_core (v m sw src sh r : Bool) : Nat :=
  let features := PLAY ||| PAUSE ||| STOP
  let features :=
    if v then features ||| (VOLUME_SET ||| VOLUME_STEP) else features
  let features := if m then features ||| VOLUME_MUTE else features
  let features :=
    if sw then features ||| (TURN_ON ||| TURN_OFF) else features
  let features := if src then features ||| SELECT_SOURCE else features
  let features := if sh then features ||| SHUFFLE_SET else features
  let features := if r then features ||| REPEAT_SET else features
  features

/-- Union of the eleven feature bits `_determine_features` can set. -/
def all_feature_bits : Nat :=
  PAUSE ||| VOLUME_SET ||| VOLUME_MUTE ||| TURN_ON ||| TURN_OFF |||
    VOLUME_STEP ||| SELECT_SOURCE ||| STOP ||| PLAY ||| SHUFFLE_SET |||
    REPEAT_SET

/-- Modelled from the spec: the device snapshot supplied by the
external device registry (a capability→attribute→value snapshot, §6);
the entity base class that reads it is not under src/.  Each field is
the value of one attribute the module reads, `none` when the attribute
is absent from the snapshot. -/
structure Snapshot where
  switch : Option Bool -- switch.switch attribute, true = on, false = off
  inputSource : Option String -- mediaInputSource.inputSource
  supportedSources : Option (List String) -- mediaInputSource.supportedInputSources
  playbackStatus : Option String -- mediaPlayback.playbackStatus
  volume : Option Int -- audioVolume.volume, integer percent
  mute : Option Bool -- audioMute.mute
  playbackShuffle : Option Bool -- mediaPlaybackShuffle.playbackShuffle
  playbackRepeat : Option String -- mediaPlaybackRepeat.playbackRepeatMode
  trackDescription : Option String -- the trackDescription attribute
deriving DecidableEq, Repr

/-- Truthiness of an optional boolean attribute value, as applied by
the conditional on the switch attribute in `state` (an absent value is
falsy). -/
def pyTruthy : Option Bool → Bool
  | some b => b
  | none => false

/-- Property `source`: gated on the SELECT_SOURCE feature bit, then
the input-source attribute read from the snapshot. -/
def source (feats : Nat) (s : Snapshot) : Option String :=
  if feats &&& SELECT_SOURCE ≠ 0 then s.inputSource else none

/-- Property `source_list`: gated on SELECT_SOURCE, then the
supported-input-sources attribute. -/
def source_list (feats : Nat) (s : Snapshot) : Option (List String) :=
  if feats &&& SELECT_SOURCE ≠ 0 then s.supportedSources else none

/-- Property `is_volume_muted`: gated on VOLUME_MUTE, then the mute
attribute. -/
def is_volume_muted (feats : Nat) (s : Snapshot) : Option Bool :=
  if feats &&& VOLUME_MUTE ≠ 0 then s.mute else none

/-- Property `volume_level`: gated on VOLUME_SET; a present integer
percent is converted to `volume / 100`, an absent one yields `none`. -/
def volume_level (feats : Nat) (s : Snapshot) : Option ℚ :=
  if feats &&& VOLUME_SET ≠ 0 then
    match s.volume with
    | some v => some ((v : ℚ) / 100)
    | none => none
  else none

/-- Property `shuffle`: gated on SHUFFLE_SET, then the shuffle
attribute. -/
def shuffle (feats : Nat) (s : Snapshot) : Option Bool :=
  if feats &&& SHUFFLE_SET ≠ 0 then s.playbackShuffle else none

/-- Property `repeat` (named `repeat_mode` here): gated on REPEAT_SET,
then the repeat-mode attribute. -/
def repeat_mode (feats : Nat) (s : Snapshot) : Option String :=
  if feats &&& REPEAT_SET ≠ 0 then s.playbackRepeat else none

/-- Property `state`: switch off ⇒ OFF; switch on with a controllable
selected source and a playback status present in `VALUE_TO_STATE` ⇒
the mapped state; otherwise ON. -/
def state (feats : Nat) (s : Snapshot) : MediaPlayerState :=
  if pyTruthy s.switch then
    match source feats s with
    | some src =>
      if src ∈ CONTROLLABLE_SOURCES then
        match s.playbackStatus with
        | some ps =>
          match lookupState ps with
          | some st => st
          | none => .ON
        | none => .ON
      else .ON
    | none => .ON
  else .OFF

/-- Property `media_title`: the track-description attribute, exposed
only while the derived state is PLAYING or PAUSED. -/
def media_title (feats : Nat) (s : Snapshot) : Option String :=
  if (state feats s = .PLAYING ∨ state feats s = .PAUSED)
      ∧ s.trackDescription.isSome then
    s.trackDescription
  else none

/-- An argument of a dispatched device command. -/
inductive CommandArg where
  | intArg (n : Int)
  | strArg (s : String)
  | boolArg (b : Bool)
deriving DecidableEq, Repr

/-- One (capability, command, optional argument) triple submitted to
the external command executor. -/
structure DeviceCommand where
  capability : String
  command : String
  argument : Option CommandArg
deriving DecidableEq, Repr

/-- Integer conversion as performed by the `int(volume * 100)` call of
the source language: truncation toward zero. -/
def pyInt (q : ℚ) : Int :=
  if 0 ≤ q then ⌊q⌋ else ⌈q⌉

/-- Modelled from the spec: the conversion `remote = round(local*100)`
claimed in §4.4, using the rounding of the source language (halves go
to the even neighbour). -/
def spec_round (q : ℚ) : Int :=
  if q - ⌊q⌋ < 1 / 2 then ⌊q⌋
  else if 1 / 2 < q - ⌊q⌋ then ⌊q⌋ + 1
  else if Even ⌊q⌋ then ⌊q⌋ else ⌊q⌋ + 1

/-!
The imperative actions.  Each method of the adapter is embedded as a
function from the cached feature mask of the adapter (the only adapter
state the methods could consult) to the list of commands it
dispatches; the method bodies never read the mask, which the embedding
reflects by ignoring the parameter, exactly as the source does.
-/

/-- Method `async_turn_off`. -/
def async_turn_off (_feats : Nat) : List DeviceCommand :=
  [⟨switch, "off", none⟩]

/-- Method `async_turn_on`. -/
def async_turn_on (_feats : Nat) : List DeviceCommand :=
  [⟨switch, "on", none⟩]

/-- Method `async_mute_volume`. -/
def async_mute_volume (_feats : Nat) (mute : Bool) : List DeviceCommand :=
  if mute then [⟨audio_mute, "mute", none⟩]
  else [⟨audio_mute, "unmute", none⟩]

/-- Method `async_set_volume_level`: dispatches `int(volume * 100)`. -/
def async_set_volume_level (_feats : Nat) (volume : ℚ) : List DeviceCommand :=
  [⟨audio_volume, "setVolume", some (.intArg (pyInt (volume * 100)))⟩]

/-- Method `async_volume_up`. -/
def async_volume_up (_feats : Nat) : List DeviceCommand :=
  [⟨audio_volume, "volumeUp", none⟩]

/-- Method `async_volume_down`. -/
def async_volume_down (_feats : Nat) : List DeviceCommand :=
  [⟨audio_volume, "volumeDown", none⟩]

/-- Method `async_media_play`. -/
def async_media_play (_feats : Nat) : List DeviceCommand :=
  [⟨media_playback, "play", none⟩]

/-- Method `async_media_pause`. -/
def async_media_pause (_feats : Nat) : List DeviceCommand :=
  [⟨media_playback, "pause", none⟩]

/-- Method `async_media_stop`. -/
def async_media_stop (_feats : Nat) : List DeviceCommand :=
  [⟨media_playback, "stop", none⟩]

/-- Method `async_select_source`. -/
def async_select_source (_feats : Nat) (src : String) : List DeviceCommand :=
  [⟨media_input_source, "setInputSource", some (.strArg src)⟩]

/-- Method `async_set_shuffle`. -/
def async_set_shuffle (_feats : Nat) (sh : Bool) : List DeviceCommand :=
  [⟨media_playback_shuffle, "setPlaybackShuffle", some (.boolArg sh)⟩]

/-- Method `async_set_repeat`. -/
def async_set_repeat (_feats : Nat) (mode : String) : List DeviceCommand :=
  [⟨media_playback_repeat, "setPlaybackRepeatMode", some (.strArg mode)⟩]

/-- A single-bit mask intersects a number exactly when the number has
the corresponding bit set. -/
theorem land_pow_ne_zero (f i : Nat) :
    (f &&& 2 ^ i ≠ 0) ↔ f.testBit i = true := by
  rw [Nat.and_two_pow]
  cases h : f.testBit i <;> simp

/-- `determine_features` factors through `features_core` applied to
the six capability tests. -/
theorem determine_features_eq (caps : List String) :
    determine_features caps =
      features_core (supports_capability caps audio_volume)
        (supports_capability caps audio_mute)
        (supports_capability caps switch)
        (supports_capability caps media_input_source)
        (supports_capability caps media_playback_shuffle)
        (supports_capability caps media_playback_repeat) := rfl

/-- Bit-level characterisation of `features_core`, by finite case
analysis over its six boolean inputs. -/
theorem features_core_spec (v m sw src sh r : Bool) :
    (features_core v m sw src sh r &&& PLAY ≠ 0) ∧
    (features_core v m sw src sh r &&& PAUSE ≠ 0) ∧
    (features_core v m sw src sh r &&& STOP ≠ 0) ∧
    ((features_core v m sw src sh r &&& VOLUME_SET ≠ 0) ↔ v = true) ∧
    ((features_core v m sw src sh r &&& VOLUME_STEP ≠ 0) ↔ v = true) ∧
    ((features_core v m sw src sh r &&& VOLUME_MUTE ≠ 0) ↔ m = true) ∧
    ((features_core v m sw src sh r &&& TURN_ON ≠ 0) ↔ sw = true) ∧
    ((features_core v m sw src sh r &&& TURN_OFF ≠ 0) ↔ sw = true) ∧
    ((features_core v m sw src sh r &&& SELECT_SOURCE ≠ 0) ↔ src = true) ∧
    ((features_core v m sw src sh r &&& SHUFFLE_SET ≠ 0) ↔ sh = true) ∧
    ((features_core v m sw src sh r &&& REPEAT_SET ≠ 0) ↔ r = true) ∧
    features_core v m sw src sh r &&& all_feature_bits
      = features_core v m sw src sh r := by
  revert v m sw src sh r
  decide

/-- `features_core` is monotone: pointwise implication of the boolean
inputs makes the first result a bitwise subset of the second. -/
theorem features_core_mono (v m sw src sh r v' m' sw' src' sh' r' : Bool)
    (hv : v = true → v' = true) (hm : m = true → m' = true)
    (hsw : sw = true → sw' = true) (hsrc : src = true → src' = true)
    (hsh : sh = true → sh' = true) (hr : r = true → r' = true) :
    features_core v m sw src sh r ||| features_core v' m' sw' src' sh' r'
      = features_core v' m' sw' src' sh' r' := by
  revert hv hm hsw hsrc hsh hr
  revert v m sw src sh r v' m' sw' src' sh' r'
  decide

/-- Adding a reported capability preserves every capability test. -/
theorem supports_capability_cons (caps : List String) (c x : String)
    (h : supports_capability caps x = true) :
    supports_capability (c :: caps) x = true := by
  simp [supports_capability, List.contains, List.elem_iff] at h ⊢
  exact Or.inr h

/-- C2: for every snapshot whose switch attribute is off, `state`
returns OFF, regardless of all other attribute values. -/
theorem state_off (feats : Nat) (s : Snapshot) (h : s.switch = some false) :
    state feats s = .OFF := by
  simp [state, pyTruthy, h]

/-- Witness for C2 at a concrete snapshot with switch off, source
bluetooth and playback status playing. -/
theorem state_off_witness :
    (Snapshot.mk (some false) (some "bluetooth") none (some "playing")
      none none none none none).switch = some false ∧
    state 2048 (Snapshot.mk (some false) (some "bluetooth") none
      (some "playing") none none none none none) = .OFF :=
  ⟨rfl, state_off 2048 _ rfl⟩

/-- C1 counterexample: with the switch on, source bluetooth and
playback status the string off — which the mapping table does map —
`state` returns the mapped state OFF, not a member of
{BUFFERING, PAUSED, PLAYING, IDLE} as the claim requires. -/
theorem state_claim_counterexample :
    pyTruthy (Snapshot.mk (some true) (some "bluetooth") none (some "off")
      none none none none none).switch = true ∧
    source 2048 (Snapshot.mk (some true) (some "bluetooth") none (some "off")
      none none none none none) = some "bluetooth" ∧
    "bluetooth" ∈ CONTROLLABLE_SOURCES ∧
    lookupState "off" = some .OFF ∧
    state 2048 (Snapshot.mk (some true) (some "bluetooth") none (some "off")
      none none none none none) = .OFF ∧
    (MediaPlayerState.OFF ∉
      ([.BUFFERING, .PAUSED, .PLAYING, .IDLE] : List MediaPlayerState)) := by
  decide

/-- C1 (amended): `state` follows the three-step algorithm — switch
off gives OFF; switch on with a controllable selected source and a
playback status that the mapping table maps gives the mapped state,
which lies in {BUFFERING, PAUSED, PLAYING, IDLE, ON, OFF}; in every
other case the state is ON. -/
theorem state_spec (feats : Nat) (s : Snapshot) :
    (pyTruthy s.switch = false → state feats s = .OFF) ∧
    (∀ src ps st, pyTruthy s.switch = true → source feats s = some src →
      src ∈ CONTROLLABLE_SOURCES → s.playbackStatus = some ps →
      lookupState ps = some st →
      state feats s = st ∧
        st ∈ ([.BUFFERING, .PAUSED, .PLAYING, .IDLE, .ON, .OFF] :
          List MediaPlayerState)) ∧
    (pyTruthy s.switch = true →
      (¬ ∃ src, source feats s = some src ∧ src ∈ CONTROLLABLE_SOURCES ∧
        ∃ ps st, s.playbackStatus = some ps ∧ lookupState ps = some st) →
      state feats s = .ON) := by
  refine ⟨?_, ?_, ?_⟩
  · intro h
    simp [state, h]
  · intro src ps st h1 h2 h3 h4 h5
    refine ⟨?_, ?_⟩
    · simp [state, h1, h2, h3, h4, h5]
    · cases st <;> decide
  · intro h1 h2
    rcases hsrc : source feats s with _ | src
    · simp [state, h1, hsrc]
    · by_cases hc : src ∈ CONTROLLABLE_SOURCES
      · rcases hps : s.playbackStatus with _ | ps
        · simp [state, h1, hsrc, hc, hps]
        · rcases hst : lookupState ps with _ | st
          · simp [state, h1, hsrc, hc, hps, hst]
          · exact absurd ⟨src, hsrc, hc, ps, st, hps, hst⟩ h2
      · simp [state, h1, hsrc, hc]

/-- Witness for C1 at a concrete snapshot: switch on, source
bluetooth, playback status playing, so the state is PLAYING. -/
theorem state_spec_witness :
    state 2048 (Snapshot.mk (some true) (some "bluetooth") none
      (some "playing") none none none none none) = .PLAYING :=
  ((state_spec 2048 _).2.1 "bluetooth" "playing" .PLAYING (by decide)
    (by decide) (by decide) rfl (by decide)).1

/-- C3 counterexample: at local volume 999/1000 the dispatched remote
argument is the truncation 99, while rounding 99.9 gives 100 — the
claimed `round(v*100)` conversion does not hold for every v in [0,1]. -/
theorem volume_round_counterexample :
    async_set_volume_level 4 (999 / 1000) =
      [⟨audio_volume, "setVolume", some (.intArg 99)⟩] ∧
    spec_round ((999 / 1000 : ℚ) * 100) = 100 ∧ (99 : Int) ≠ 100 := by
  refine ⟨?_, ?_, by decide⟩
  · simp [async_set_volume_level]
    norm_num [pyInt]
  · norm_num [spec_round]

/-- C3 (amended): for every local volume v in [0,1] the dispatched
remote argument is the truncation of v*100 (which agrees with rounding
at 0.0, 0.5 and 1.0), and for every remote integer r in 0..100 present
in the snapshot with VOLUME_SET supported, `volume_level` returns
r/100. -/
theorem volume_conversion_spec (fe : Nat) (s : Snapshot) (v : ℚ) (r : Int)
    (hv0 : 0 ≤ v) (hv1 : v ≤ 1) (hr0 : 0 ≤ r) (hr1 : r ≤ 100)
    (hbit : fe.testBit 2 = true) (hvol : s.volume = some r) :
    async_set_volume_level fe v =
      [⟨audio_volume, "setVolume", some (.intArg ⌊v * 100⌋)⟩] ∧
    volume_level fe s = some ((r : ℚ) / 100) := by
  constructor
  · simp [async_set_volume_level, pyInt,
      mul_nonneg hv0 (by norm_num : (0 : ℚ) ≤ 100)]
  · have h2 : (fe &&& VOLUME_SET ≠ 0) := by
      rw [show VOLUME_SET = 2 ^ 2 from rfl, land_pow_ne_zero]
      exact hbit
    simp [volume_level, h2, hvol]

/-- Witness for C3 at local volume 1/2 and remote volume 50: the
dispatched argument is 50 and the read-back level is 50/100. -/
theorem volume_conversion_witness :
    async_set_volume_level 4 (1 / 2) =
      [⟨audio_volume, "setVolume", some (.intArg 50)⟩] ∧
    volume_level 4 (Snapshot.mk none none none none (some 50) none none
      none none) = some ((50 : ℚ) / 100) := by
  have h := volume_conversion_spec 4
    (Snapshot.mk none none none none (some 50) none none none none)
    (1 / 2) 50 (by norm_num) (by norm_num) (by norm_num) (by norm_num)
    (by decide) rfl
  refine ⟨?_, h.2⟩
  rw [h.1]
  norm_num

/-- C4: `get_capabilities` returns the full seven-capability list
exactly when at least one of the six primary capabilities is present,
and `none` exactly when none is; in particular the switch capability
alone does not qualify. -/
theorem get_capabilities_spec (caps : List String) :
    (get_capabilities caps = some supported_list ↔
      ∃ c ∈ primary_capabilities, c ∈ caps) ∧
    (get_capabilities caps = none ↔
      ∀ c ∈ primary_capabilities, c ∉ caps) ∧
    get_capabilities [switch] = none := by
  refine ⟨?_, ?_, by decide⟩ <;>
    simp [get_capabilities, supported_list, primary_capabilities,
      List.contains, List.elem_iff] <;>
    tauto

/-- C5: the feature mask equals the base PLAY, PAUSE and STOP bits
plus exactly the bits gated on each supported capability, and no bit
outside the eleven feature bits is set. -/
theorem determine_features_spec (caps : List String) :
    (determine_features caps &&& PLAY ≠ 0) ∧
    (determine_features caps &&& PAUSE ≠ 0) ∧
    (determine_features caps &&& STOP ≠ 0) ∧
    ((determine_features caps &&& VOLUME_SET ≠ 0) ↔
      supports_capability caps audio_volume = true) ∧
    ((determine_features caps &&& VOLUME_STEP ≠ 0) ↔
      supports_capability caps audio_volume = true) ∧
    ((determine_features caps &&& VOLUME_MUTE ≠ 0) ↔
      supports_capability caps audio_mute = true) ∧
    ((determine_features caps &&& TURN_ON ≠ 0) ↔
      supports_capability caps switch = true) ∧
    ((determine_features caps &&& TURN_OFF ≠ 0) ↔
      supports_capability caps switch = true) ∧
    ((determine_features caps &&& SELECT_SOURCE ≠ 0) ↔
      supports_capability caps media_input_source = true) ∧
    ((determine_features caps &&& SHUFFLE_SET ≠ 0) ↔
      supports_capability caps media_playback_shuffle = true) ∧
    ((determine_features caps &&& REPEAT_SET ≠ 0) ↔
      supports_capability caps media_playback_repeat = true) ∧
    determine_features caps &&& all_feature_bits
      = determine_features caps := by
  rw [determine_features_eq]
  exact features_core_spec _ _ _ _ _ _

/-- C6: the feature mask is monotone in capability presence — every
feature bit set for a capability list stays set after one more
capability is added. -/
theorem features_monotone (caps : List String) (c : String) (i : Nat)
    (h : (determine_features caps).testBit i = true) :
    (determine_features (c :: caps)).testBit i = true := by
  have key : determine_features caps ||| determine_features (c :: caps)
      = determine_features (c :: caps) := by
    rw [determine_features_eq caps, determine_features_eq (c :: caps)]
    exact features_core_mono _ _ _ _ _ _ _ _ _ _ _ _
      (supports_capability_cons caps c audio_volume)
      (supports_capability_cons caps c audio_mute)
      (supports_capability_cons caps c switch)
      (supports_capability_cons caps c media_input_source)
      (supports_capability_cons caps c media_playback_shuffle)
      (supports_capability_cons caps c media_playback_repeat)
  have h2 := congrArg (fun n => Nat.testBit n i) key
  simp only [Nat.testBit_or, h, Bool.true_or] at h2
  exact h2.symm

/-- Witness for C6 at the empty capability list, the added capability
switch and the PAUSE bit. -/
theorem features_monotone_witness :
    (determine_features []).testBit 0 = true ∧
    (determine_features ["switch"]).testBit 0 = true :=
  ⟨by decide, features_monotone [] "switch" 0 (by decide)⟩

/-- C7: `media_title` returns a value exactly when the derived state
is PLAYING or PAUSED and the track-description attribute is present,
in which case it returns that value; otherwise it returns `none`. -/
theorem media_title_spec (fe : Nat) (s : Snapshot) :
    (∀ v, media_title fe s = some v ↔
      ((state fe s = .PLAYING ∨ state fe s = .PAUSED) ∧
        s.trackDescription = some v)) ∧
    ((state fe s ≠ .PLAYING ∧ state fe s ≠ .PAUSED) →
      media_title fe s = none) ∧
    (s.trackDescription = none → media_title fe s = none) := by
  refine ⟨?_, ?_, ?_⟩
  · intro v
    constructor
    · intro h
      by_cases hc : (state fe s = .PLAYING ∨ state fe s = .PAUSED)
          ∧ s.trackDescription.isSome
      · rw [media_title, if_pos hc] at h
        exact ⟨hc.1, h⟩
      · rw [media_title, if_neg hc] at h
        exact absurd h (by simp)
    · intro hh
      rw [media_title, if_pos ⟨hh.1, by simp [hh.2]⟩]
      exact hh.2
  · intro hh
    rw [media_title, if_neg]
    intro hc
    rcases hc.1 with hc1 | hc1
    exacts [hh.1 hc1, hh.2 hc1]
  · intro h
    rw [media_title, if_neg]
    intro hc
    rw [h] at hc
    exact absurd hc.2 (by simp)

/-- Witness for C7 at a concrete playing snapshot with a track
description present. -/
theorem media_title_witness :
    media_title 2048 (Snapshot.mk (some true) (some "bluetooth") none
      (some "playing") none none none none (some "Song")) = some "Song" :=
  ((media_title_spec 2048 _).1 "Song").mpr ⟨Or.inl (by decide), rfl⟩

/-- C8: each feature-gated accessor returns `none` when its feature
bit is absent, and the snapshot value (converted for volume) when the
bit is present; all accessors are total. -/
theorem gated_accessors_spec (fe : Nat) (s : Snapshot) :
    is_volume_muted fe s = (if fe.testBit 3 then s.mute else none) ∧
    volume_level fe s =
      (if fe.testBit 2 then s.volume.map (fun r => (r : ℚ) / 100)
       else none) ∧
    source fe s = (if fe.testBit 11 then s.inputSource else none) ∧
    source_list fe s =
      (if fe.testBit 11 then s.supportedSources else none) ∧
    shuffle fe s = (if fe.testBit 15 then s.playbackShuffle else none) ∧
    repeat_mode fe s =
      (if fe.testBit 18 then s.playbackRepeat else none) := by
  have h3 := land_pow_ne_zero fe 3
  have h2 := land_pow_ne_zero fe 2
  have h11 := land_pow_ne_zero fe 11
  have h15 := land_pow_ne_zero fe 15
  have h18 := land_pow_ne_zero fe 18
  refine ⟨?_, ?_, ?_, ?_, ?_, ?_⟩
  · simp only [is_volume_muted]
    exact if_congr (by rw [show VOLUME_MUTE = 2 ^ 3 from rfl]; exact h3)
      rfl rfl
  · simp only [volume_level]
    refine if_congr (by rw [show VOLUME_SET = 2 ^ 2 from rfl]; exact h2)
      ?_ rfl
    cases s.volume <;> rfl
  · simp only [source]
    exact if_congr (by rw [show SELECT_SOURCE = 2 ^ 11 from rfl]; exact h11)
      rfl rfl
  · simp only [source_list]
    exact if_congr (by rw [show SELECT_SOURCE = 2 ^ 11 from rfl]; exact h11)
      rfl rfl
  · simp only [shuffle]
    exact if_congr (by rw [show SHUFFLE_SET = 2 ^ 15 from rfl]; exact h15)
      rfl rfl
  · simp only [repeat_mode]
    exact if_congr (by rw [show REPEAT_SET = 2 ^ 18 from rfl]; exact h18)
      rfl rfl

/-- C9: every imperative action dispatches exactly one command triple,
and its behaviour is independent of the feature mask — the methods
perform no local feature-bit check, so they cannot fail locally even
when the prerequisite bit is absent. -/
theorem dispatch_spec (f f' : Nat) (m sh : Bool) (v : ℚ)
    (src mode : String) :
    (async_turn_off f = async_turn_off f' ∧
      (async_turn_off f).length = 1) ∧
    (async_turn_on f = async_turn_on f' ∧ (async_turn_on f).length = 1) ∧
    (async_mute_volume f m = async_mute_volume f' m ∧
      (async_mute_volume f m).length = 1) ∧
    (async_set_volume_level f v = async_set_volume_level f' v ∧
      (async_set_volume_level f v).length = 1) ∧
    (async_volume_up f = async_volume_up f' ∧
      (async_volume_up f).length = 1) ∧
    (async_volume_down f = async_volume_down f' ∧
      (async_volume_down f).length = 1) ∧
    (async_media_play f = async_media_play f' ∧
      (async_media_play f).length = 1) ∧
    (async_media_pause f = async_media_pause f' ∧
      (async_media_pause f).length = 1) ∧
    (async_media_stop f = async_media_stop f' ∧
      (async_media_stop f).length = 1) ∧
    (async_select_source f src = async_select_source f' src ∧
      (async_select_source f src).length = 1) ∧
    (async_set_shuffle f sh = async_set_shuffle f' sh ∧
      (async_set_shuffle f sh).length = 1) ∧
    (async_set_repeat f mode = async_set_repeat f' mode ∧
      (async_set_repeat f mode).length = 1) := by
  cases m <;>
    simp [async_turn_off, async_turn_on, async_mute_volume,
      async_set_volume_level, async_volume_up, async_volume_down,
      async_media_play, async_media_pause, async_media_stop,
      async_select_source, async_set_shuffle, async_set_repeat]

/-- C10: with the VOLUME_SET bit present but the volume attribute
absent from the snapshot, `volume_level` returns `none` and never
applies the division by 100. -/
theorem volume_level_missing (fe : Nat) (s : Snapshot)
    (h1 : fe.testBit 2 = true) (h2 : s.volume = none) :
    volume_level fe s = none := by
  simp [volume_level, h2]

/-- Witness for C10 at the mask with only VOLUME_SET and an empty
snapshot. -/
theorem volume_level_missing_witness :
    volume_level 4 (Snapshot.mk none none none none none none none none
      none) = none :=
  volume_level_missing 4 _ (by decide) rfl

end STMedia
